import Mathlib

/-!
Formal model of the zombie-shooter simulation core (HealthSystem, Player
shooting, Zombie state machine, Bullet lifecycle, and the Game spawn
director), shallowly embedded from the JavaScript source.

Conventions of the embedding:
* JS numbers that hold health values, velocities and damage amounts are
  modelled as rationals; timestamps (`Date.now()`, millisecond counters)
  are modelled as integers.
* Values the code derives from scene geometry or `Math.random()`
  (distances, normalized directions) are passed in as parameters and
  universally quantified in the theorems.
* Callback fields (`onDeath`, `onHealthChanged`, ...) are modelled as
  explicit boolean signals in the returned result.
* `Array.prototype.forEach` combined with `splice` inside the callback is
  modelled exactly: the iteration bound is the length captured at entry,
  and an index that falls outside the shrunken array is skipped.
-/

/-- State of `HealthSystem` (src/src/game/HealthSystem.js, duplicated in
the unnamed module): max health, current health, timestamp of the last
applied damage, and the immunity window in milliseconds. -/
structure HealthSystem where
  maxHealth : ℚ
  currentHealth : ℚ
  lastDamageTime : ℤ
  damageImmunityDuration : ℤ
deriving Repr, DecidableEq

/-- Constructor `new HealthSystem(maxHealth)`: full health, zero last-damage
timestamp, a 1000 ms immunity window. -/
def HealthSystem.init (maxHealth : ℚ) : HealthSystem :=
  { maxHealth := maxHealth
    currentHealth := maxHealth
    lastDamageTime := 0
    damageImmunityDuration := 1000 }

/-- Result of a `takeDamage` call: the updated system, the boolean return
value (`true` = applied, `false` = blocked), and whether the `onDeath`
callback condition fired. -/
structure DamageResult where
  system : HealthSystem
  applied : Bool
  deathSignalled : Bool
deriving Repr, DecidableEq

/-- Model of `HealthSystem.takeDamage(amount)` at time `currentTime`:
if `currentTime - lastDamageTime < damageImmunityDuration` the damage is
blocked and the call returns `false` with no state change; otherwise the
health is decreased, clamped below at 0, `lastDamageTime` is updated, the
death condition (`currentHealth <= 0`) is signalled, and the call returns
`true`. -/
def HealthSystem.takeDamage (h : HealthSystem) (currentTime : ℤ) (amount : ℚ) :
    DamageResult :=
  if currentTime - h.lastDamageTime < h.damageImmunityDuration then
    { system := h, applied := false, deathSignalled := false }
  else
    let ch := max 0 (h.currentHealth - amount)
    { system := { h with currentHealth := ch, lastDamageTime := currentTime }
      applied := true
      deathSignalled := decide (ch ≤ 0) }

/-- Model of `HealthSystem.heal(amount)`: add the amount, clamp above at
`maxHealth`. -/
def HealthSystem.heal (h : HealthSystem) (amount : ℚ) : HealthSystem :=
  { h with currentHealth := min h.maxHealth (h.currentHealth + amount) }

/-- Model of `HealthSystem.reset()`. -/
def HealthSystem.reset (h : HealthSystem) : HealthSystem :=
  { h with currentHealth := h.maxHealth, lastDamageTime := 0 }

/-- Model of `HealthSystem.isDead()`. -/
def HealthSystem.isDead (h : HealthSystem) : Bool :=
  decide (h.currentHealth ≤ 0)

/-- Shooting-relevant state of `Player` (src/src/game/Player.js):
health/ammo counters, the timestamp of the last shot, the fire-rate
interval, and the bullet array abstracted to its length (`bullets` counts
the `this.bullets.push(bullet)` calls made by `shoot()`; the removal sweep
over the array contents is modelled separately on `List Bullet`). -/
structure Player where
  health : ℚ
  maxHealth : ℚ
  ammo : ℤ
  maxAmmo : ℤ
  lastShotTime : ℤ
  fireRate : ℤ
  bullets : ℕ
deriving Repr, DecidableEq

/-- Constructor state of `Player`: health 100, ammo 30, `lastShotTime = 0`,
`fireRate = 200` ms, no bullets. -/
def Player.init : Player :=
  { health := 100, maxHealth := 100, ammo := 30, maxAmmo := 30
    lastShotTime := 0, fireRate := 200, bullets := 0 }

/-- Model of `Player.updateShooting()` at time `currentTime` with the
shoot key state: fires exactly when the key is down, at least `fireRate`
ms have passed since `lastShotTime`, and ammo is positive; a shot pushes
one bullet, stamps `lastShotTime`, and decrements ammo. -/
def Player.updateShooting (p : Player) (currentTime : ℤ) (shootKey : Bool) :
    Player :=
  if shootKey = true ∧ p.fireRate ≤ currentTime - p.lastShotTime ∧ 0 < p.ammo
  then
    { p with
      bullets := p.bullets + 1
      lastShotTime := currentTime
      ammo := p.ammo - 1 }
  else p

/-- Attempt times of Scenario B: one fire attempt every 50 ms for one
second, starting at `t0`. -/
def Player.attemptTimes (t0 : ℤ) : List ℤ :=
  [t0, t0 + 50, t0 + 100, t0 + 150, t0 + 200, t0 + 250, t0 + 300, t0 + 350,
    t0 + 400, t0 + 450, t0 + 500, t0 + 550, t0 + 600, t0 + 650, t0 + 700,
    t0 + 750, t0 + 800, t0 + 850, t0 + 900, t0 + 950]

/-- Run a sequence of `updateShooting` calls with the shoot key held. -/
def Player.runShootAttempts (p : Player) (ts : List ℤ) : Player :=
  ts.foldl (fun q t => q.updateShooting t true) p

/-- Spawn-director state of `Game` (the unnamed Game module): the zombie
array abstracted to its length, the spawn accumulator, the spawn interval,
and the population cap. -/
structure GameState where
  zombieCount : ℕ
  zombieSpawnTimer : ℚ
  zombieSpawnInterval : ℤ
  maxZombies : ℕ
deriving Repr, DecidableEq

/-- Constructor state of `Game`: no zombies, timer 0, spawn interval
3000 ms, cap 10. -/
def GameState.initial : GameState :=
  { zombieCount := 0, zombieSpawnTimer := 0, zombieSpawnInterval := 3000
    maxZombies := 10 }

/-- The loop of `Game.spawnZombies(count)`:
`for (let i = 0; i < count && this.zombies.length < this.maxZombies; i++)`
pushing one zombie per iteration; `spawnLoop maxZ count n` is the zombie
count after the loop starting from count `n`. -/
def spawnLoop (maxZ : ℕ) : ℕ → ℕ → ℕ
  | 0, n => n
  | c + 1, n => if n < maxZ then spawnLoop maxZ c (n + 1) else n

/-- Model of `Game.spawnZombies(count)`. -/
def GameState.spawnZombies (g : GameState) (count : ℕ) : GameState :=
  { g with zombieCount := spawnLoop g.maxZombies count g.zombieCount }

/-- State after `Game.setupEntities()`: the initial spawn of 3 zombies. -/
def GameState.setup : GameState :=
  GameState.initial.spawnZombies 3

/-- Spawn-director portion of one `Game.update(deltaTime)` tick: dead
zombies are pruned (`deaths` of them — the number removed by the
forEach/splice loop over `this.zombies`), the spawn accumulator grows by
`deltaTime * 1000` ms, and once it reaches `zombieSpawnInterval` one
zombie is spawned, the accumulator resets, and the interval drops by 50 ms
while it is still above 1000 ms. -/
def GameState.update (g : GameState) (dtMs : ℚ) (deaths : ℕ) : GameState :=
  let g1 : GameState := { g with zombieCount := g.zombieCount - deaths }
  let timer := g1.zombieSpawnTimer + dtMs
  if (g1.zombieSpawnInterval : ℚ) ≤ timer then
    let g2 := g1.spawnZombies 1
    { g2 with
      zombieSpawnTimer := 0
      zombieSpawnInterval :=
        if 1000 < g2.zombieSpawnInterval then g2.zombieSpawnInterval - 50
        else g2.zombieSpawnInterval }
  else { g1 with zombieSpawnTimer := timer }

/-- Model of `Game.restartGame()`: all zombies removed, timers reset
(`zombieSpawnTimer = 0`, `zombieSpawnInterval = 3000`), then 3 zombies
respawned. -/
def GameState.restartGame (g : GameState) : GameState :=
  ({ g with
      zombieCount := 0
      zombieSpawnTimer := 0
      zombieSpawnInterval := 3000 }).spawnZombies 3

/-- Model of `Game.getKillCount()`:
`Math.max(0, 10 - this.zombies.length)`. -/
def GameState.getKillCount (g : GameState) : ℤ :=
  max 0 (10 - (g.zombieCount : ℤ))

/-- Game states reachable in a session: the state after setup, and closed
under update ticks (with nonnegative elapsed time) and restarts. -/
inductive GameState.Reachable : GameState → Prop
  | setup : GameState.Reachable GameState.setup
  | update (g : GameState) (dtMs : ℚ) (deaths : ℕ) :
      GameState.Reachable g → 0 ≤ dtMs →
      GameState.Reachable (g.update dtMs deaths)
  | restart (g : GameState) : GameState.Reachable g →
      GameState.Reachable g.restartGame

/-- Run a sequence of update ticks (one session, no restart). -/
def GameState.runUpdates (g : GameState) (steps : List (ℚ × ℕ)) : GameState :=
  steps.foldl (fun h s => h.update s.1 s.2) g

/-- AI states of `Zombie` (src/src/game/Zombie.js): the string field
`state` takes the values idle, chasing, attacking, dead. -/
inductive ZombieAIState where
  | idle
  | chasing
  | attacking
  | dead
deriving Repr, DecidableEq

/-- Simulation state of `Zombie`: health, constants, AI state, the physics
body's velocity and mass, and the AI timers. Visual-only fields (meshes,
rotations, walk-cycle phases) are omitted; positions live in the physics
engine, so the geometric quantities `updateAI` derives from them
(distance to target, distance moved, normalized directions) enter as
parameters of `update`. -/
structure Zombie where
  health : ℚ
  maxHealth : ℚ
  speed : ℚ
  state : ZombieAIState
  velocityX : ℚ
  velocityY : ℚ
  velocityZ : ℚ
  mass : ℚ
  pathfindingTimer : ℚ
  stuckTimer : ℚ
  lastAttackTime : ℤ
deriving Repr, DecidableEq

/-- Constructor state of `Zombie`: health 100, speed 3, state idle, body
mass 70, timers zero. -/
def Zombie.spawn : Zombie :=
  { health := 100, maxHealth := 100, speed := 3, state := .idle
    velocityX := 0, velocityY := 0, velocityZ := 0, mass := 70
    pathfindingTimer := 0, stuckTimer := 0, lastAttackTime := 0 }

/-- Model of `Zombie.die()`: state becomes dead, the body velocity is
zeroed and its mass set to 0 (the fall-over rotation is visual only). -/
def Zombie.die (z : Zombie) : Zombie :=
  { z with
    state := .dead
    velocityX := 0
    velocityY := 0
    velocityZ := 0
    mass := 0 }

/-- Model of `Zombie.takeDamage(amount)`: subtract, clamp below at 0, and
call `die()` when the clamped health is at most 0 (zombies do not use
`HealthSystem`, so there is no immunity window here). -/
def Zombie.takeDamage (z : Zombie) (amount : ℚ) : Zombie :=
  let z1 : Zombie := { z with health := max 0 (z.health - amount) }
  if z1.health ≤ 0 then z1.die else z1

/-- Model of `Zombie.moveTowardsTarget`: velocity set to the normalized
horizontal direction (`dirX`, `dirZ`) times `speed`. -/
def Zombie.moveTowardsTarget (z : Zombie) (dirX dirZ : ℚ) : Zombie :=
  { z with velocityX := dirX * z.speed, velocityZ := dirZ * z.speed }

/-- Model of `Zombie.unstuck()`: velocity set to a random normalized
horizontal direction (`rndX`, `rndZ`) times `speed * 1.5`. -/
def Zombie.unstuck (z : Zombie) (rndX rndZ : ℚ) : Zombie :=
  { z with velocityX := rndX * z.speed * 1.5, velocityZ := rndZ * z.speed * 1.5 }

/-- Model of `Zombie.updateAI(deltaTime)` with `dtMs = deltaTime * 1000`:
no-op without a target; every 100 ms of accumulated timer the state
becomes chasing (distance beyond the attack range 2) or attacking
(horizontal velocity zeroed); the stuck timer grows while the zombie
moved less than 0.1 and past 2000 ms triggers `unstuck`. -/
def Zombie.updateAI (z : Zombie) (dtMs : ℚ) (hasTarget : Bool)
    (dist movedDist dirX dirZ rndX rndZ : ℚ) : Zombie :=
  if hasTarget = false then z
  else
    let z1 : Zombie :=
      if 100 ≤ z.pathfindingTimer + dtMs then
        if 2 < dist then
          ({ z with pathfindingTimer := 0, state := .chasing
            }).moveTowardsTarget dirX dirZ
        else
          { z with
            pathfindingTimer := 0
            state := .attacking
            velocityX := 0
            velocityZ := 0 }
      else { z with pathfindingTimer := z.pathfindingTimer + dtMs }
    if movedDist < 1/10 then
      if 2000 < z1.stuckTimer + dtMs then
        { z1.unstuck rndX rndZ with stuckTimer := 0 }
      else { z1 with stuckTimer := z1.stuckTimer + dtMs }
    else { z1 with stuckTimer := 0 }

/-- Model of `Zombie.update(deltaTime)`: a zombie at health ≤ 0 is forced
to the dead state and returns immediately; otherwise the AI runs
(`updateAnimation`/`updatePhysics` touch only visual meshes and are
omitted). -/
def Zombie.update (z : Zombie) (dtMs : ℚ) (hasTarget : Bool)
    (dist movedDist dirX dirZ rndX rndZ : ℚ) : Zombie :=
  if z.health ≤ 0 then { z with state := .dead }
  else z.updateAI dtMs hasTarget dist movedDist dirX dirZ rndX rndZ

/-- Model of `Zombie.isDead()`. -/
def Zombie.isDead (z : Zombie) : Bool :=
  decide (z.state = .dead)

/-- One externally triggered call on a zombie: an `update` tick (with the
geometry-derived parameters) or a `takeDamage` call. -/
inductive ZombieCall where
  | update (dtMs : ℚ) (hasTarget : Bool)
      (dist movedDist dirX dirZ rndX rndZ : ℚ)
  | damage (amount : ℚ)

/-- Apply one call to a zombie. -/
def Zombie.applyCall (z : Zombie) : ZombieCall → Zombie
  | .update dtMs ht dist md dx dz rx rz =>
      z.update dtMs ht dist md dx dz rx rz
  | .damage a => z.takeDamage a

/-- Apply a sequence of calls to a zombie. -/
def Zombie.applyCalls (z : Zombie) (cs : List ZombieCall) : Zombie :=
  cs.foldl Zombie.applyCall z

/-- Damage calls carry a nonnegative amount (every call site in the game
passes the constant 25). -/
def ZombieCall.nonNegDamage : ZombieCall → Prop
  | .damage a => 0 ≤ a
  | _ => True

/-- Categories of physics bodies a bullet can contact (the collision
handler receives the other body of the cannon-es contact event). -/
inductive BodyKind where
  | ground
  | playerBody
  | zombieBody
  | staticGeometry
  | bulletBody
deriving Repr, DecidableEq

/-- Lifecycle state of `Bullet` (src/src/game/Bullet.js): the removal
flag (left undefined — falsy — by the constructor, modelled as `false`),
the creation timestamp, and the body's vertical position (`lifeTime` is
the constant 3000 ms). -/
structure Bullet where
  shouldBeRemoved : Bool
  createTime : ℤ
  posY : ℚ
deriving Repr, DecidableEq

/-- Constructor state of `Bullet`: flag unset, given creation time and
vertical position. -/
def Bullet.fresh (createTime : ℤ) (posY : ℚ) : Bullet :=
  { shouldBeRemoved := false, createTime := createTime, posY := posY }

/-- Model of `Bullet.onCollision(event)`: the handler reads the other body
but never branches on it and applies no damage; it only creates a visual
impact effect and sets `shouldBeRemoved = true`. -/
def Bullet.onCollision (b : Bullet) (other : BodyKind) : Bullet :=
  { b with shouldBeRemoved := true }

/-- Model of `Bullet.shouldRemove()`: flagged, or older than `lifeTime`
(3000 ms), or fallen below the world floor at y = -10. -/
def Bullet.shouldRemove (b : Bullet) (currentTime : ℤ) : Bool :=
  b.shouldBeRemoved || decide (3000 < currentTime - b.createTime) ||
    decide (b.posY < -10)

/-- The loop of `Player.updateBullets`: a `forEach` over the bullet array
that splices out the bullet at the current index when `shouldRemove()`
holds. `forEach` fixes the iteration bound at entry (`fuel` counts the
remaining indices) and skips an index that the shrunken array no longer
has. -/
def updateBulletsGo (now : ℤ) : ℕ → ℕ → List Bullet → List Bullet
  | 0, _, bs => bs
  | fuel + 1, k, bs =>
    match bs.get? k with
    | none => updateBulletsGo now fuel (k + 1) bs
    | some b =>
      if b.shouldRemove now then updateBulletsGo now fuel (k + 1) (bs.eraseIdx k)
      else updateBulletsGo now fuel (k + 1) bs

/-- Model of the removal sweep of `Player.updateBullets(deltaTime)` at
time `now` (the per-bullet `update` call only syncs the visual mesh). -/
def updateBullets (now : ℤ) (bs : List Bullet) : List Bullet :=
  updateBulletsGo now bs.length 0 bs

/-- Number of bullets in the list whose `shouldRemove()` holds at `now`. -/
def countFlagged (now : ℤ) (bs : List Bullet) : ℕ :=
  bs.countP (fun b => b.shouldRemove now)

/-- Iterate the removal sweep over several ticks (at a fixed query time). -/
def iterateSweep (now : ℤ) : ℕ → List Bullet → List Bullet
  | 0, bs => bs
  | n + 1, bs => iterateSweep now n (updateBullets now bs)

/-- Replace the element at an index by its image under `f` (the in-place
mutation of one array element). -/
def modifyAt {α : Type} (f : α → α) : ℕ → List α → List α
  | _, [] => []
  | 0, x :: xs => f x :: xs
  | j + 1, x :: xs => x :: modifyAt f j xs

/-- Damage the zombie at index `j` by the fixed bullet damage 25
(`zombie.takeDamage(25)` in `Game.handleBulletCollisions`). -/
def damageZombieAt (j : ℕ) (zs : List Zombie) : List Zombie :=
  modifyAt (fun z => z.takeDamage 25) j zs

/-- Inner loop of `Game.handleBulletCollisions` for the bullet `b` held by
the closure at outer `forEach` index `k`: a `forEach` over the zombies
array (`j` is the current index, `n` the remaining count; the zombie
array is never resized here, only elements are mutated). On each overlap
(`collide b j`, the distance-based `checkCollision` — mesh positions do
not change during the sweep) the zombie takes 25 damage and
`bullets.splice(bulletIndex, 1)` erases index `k` again. -/
def zombieSweep (collide : ℕ → ℕ → Bool) (b k : ℕ) :
    ℕ → ℕ → List Zombie → List ℕ → List Zombie × List ℕ
  | _, 0, zs, bs => (zs, bs)
  | j, n + 1, zs, bs =>
    if collide b j then
      zombieSweep collide b k (j + 1) n (damageZombieAt j zs) (bs.eraseIdx k)
    else zombieSweep collide b k (j + 1) n zs bs

/-- Outer loop of `Game.handleBulletCollisions`: a `forEach` over the
bullet array (identified by ids in `List ℕ`), with the iteration bound
fixed at entry and indices missing from the spliced array skipped. -/
def handleBulletCollisionsGo (collide : ℕ → ℕ → Bool) :
    ℕ → ℕ → List Zombie → List ℕ → List Zombie × List ℕ
  | 0, _, zs, bs => (zs, bs)
  | fuel + 1, k, zs, bs =>
    match bs.get? k with
    | none => handleBulletCollisionsGo collide fuel (k + 1) zs bs
    | some b =>
      let r := zombieSweep collide b k 0 zs.length zs bs
      handleBulletCollisionsGo collide fuel (k + 1) r.1 r.2

/-- Model of `Game.handleBulletCollisions()`: for each bullet, for each
zombie, on overlap damage the zombie by 25 and splice the bullet out. -/
def handleBulletCollisions (collide : ℕ → ℕ → Bool) (zs : List Zombie)
    (bs : List ℕ) : List Zombie × List ℕ :=
  handleBulletCollisionsGo collide bs.length 0 zs bs

/-- C1 counterexample: the claim asserts `0 ≤ currentHealth ≤ maxHealth`
after every `heal(amount)` call for EVERY amount; `heal(-200)` on a fresh
100-health system leaves `currentHealth = -100 < 0` (the code clamps only
against `maxHealth` in `heal`, and only against `0` in `takeDamage`). -/
theorem C1_counterexample :
    ((HealthSystem.init 100).heal (-200)).currentHealth = -100 ∧
    ¬ (0 ≤ ((HealthSystem.init 100).heal (-200)).currentHealth) := by
  have hv : ((HealthSystem.init 100).heal (-200)).currentHealth = -100 := by
    norm_num [HealthSystem.heal, HealthSystem.init]
  refine ⟨hv, ?_⟩
  rw [hv]
  norm_num

/-- C1 amended: for every NONNEGATIVE amount, if `0 ≤ currentHealth ≤
maxHealth` holds before a `takeDamage` or `heal` call then it holds after
it. -/
theorem C1_health_clamped (h : HealthSystem) (currentTime : ℤ) (amount : ℚ)
    (hamt : 0 ≤ amount) (h0 : 0 ≤ h.currentHealth)
    (h1 : h.currentHealth ≤ h.maxHealth) :
    (0 ≤ (h.takeDamage currentTime amount).system.currentHealth ∧
      (h.takeDamage currentTime amount).system.currentHealth ≤ h.maxHealth) ∧
    (0 ≤ (h.heal amount).currentHealth ∧
      (h.heal amount).currentHealth ≤ h.maxHealth) := by
  unfold HealthSystem.takeDamage HealthSystem.heal
  split
  · exact ⟨⟨h0, h1⟩, ⟨by simp only [le_min_iff]; constructor <;> linarith,
      min_le_left _ _⟩⟩
  · refine ⟨⟨le_max_left _ _, ?_⟩, ⟨by simp only [le_min_iff]; constructor <;> linarith,
      min_le_left _ _⟩⟩
    simp only [max_le_iff]
    constructor <;> linarith

/-- C1 witness. -/
theorem C1_health_clamped_witness :
    (0 ≤ ((HealthSystem.init 100).takeDamage 2000 30).system.currentHealth ∧
      ((HealthSystem.init 100).takeDamage 2000 30).system.currentHealth ≤
        (HealthSystem.init 100).maxHealth) ∧
    (0 ≤ ((HealthSystem.init 100).heal 30).currentHealth ∧
      ((HealthSystem.init 100).heal 30).currentHealth ≤
        (HealthSystem.init 100).maxHealth) :=
  C1_health_clamped (HealthSystem.init 100) 2000 30 (by decide) (by decide)
    (by decide)

/-- Helper: a `takeDamage` call inside the immunity window is the identity
on the state and returns the blocked result. -/
theorem takeDamage_blocked (h : HealthSystem) (now : ℤ) (amount : ℚ)
    (hc : now - h.lastDamageTime < h.damageImmunityDuration) :
    h.takeDamage now amount = ⟨h, false, false⟩ := by
  simp [HealthSystem.takeDamage, hc]

/-- Helper: a `takeDamage` call outside the immunity window applies the
clamped damage, stamps the time, and returns the applied result. -/
theorem takeDamage_applied (h : HealthSystem) (now : ℤ) (amount : ℚ)
    (hc : h.damageImmunityDuration ≤ now - h.lastDamageTime) :
    h.takeDamage now amount =
      ⟨⟨h.maxHealth, max 0 (h.currentHealth - amount), now,
          h.damageImmunityDuration⟩, true,
        decide (max 0 (h.currentHealth - amount) ≤ 0)⟩ := by
  simp [HealthSystem.takeDamage, not_lt.mpr hc]

/-- C2 counterexample: the claim fails when the first of the two calls is
itself blocked by an earlier hit. After damage applied at t = 1000000,
two `takeDamage(10)` calls at t = 1000500 and t = 1001400 are 900 ms
apart; the first is blocked (health stays 90) but the second applies
(health 80), so the health after both calls differs from the health after
the first call alone. -/
theorem C2_counterexample :
    (1001400 - 1000500 : ℤ) < 1000 ∧
    (((((HealthSystem.init 100).takeDamage 1000000 10).system.takeDamage
          1000500 10).system.takeDamage 1001400 10).system.currentHealth = 80 ∧
      ((((HealthSystem.init 100).takeDamage 1000000
          10).system).takeDamage 1000500 10).system.currentHealth = 90) := by
  have e0 : (HealthSystem.init 100).takeDamage 1000000 10 =
      ⟨⟨100, 90, 1000000, 1000⟩, true, false⟩ := by
    rw [takeDamage_applied _ _ _ (by norm_num [HealthSystem.init])]
    norm_num [HealthSystem.init, max_def]
  have e1 : (⟨100, 90, 1000000, 1000⟩ : HealthSystem).takeDamage 1000500 10 =
      ⟨⟨100, 90, 1000000, 1000⟩, false, false⟩ :=
    takeDamage_blocked _ _ _ (by norm_num)
  have e2 : (⟨100, 90, 1000000, 1000⟩ : HealthSystem).takeDamage 1001400 10 =
      ⟨⟨100, 80, 1001400, 1000⟩, true, false⟩ := by
    rw [takeDamage_applied _ _ _ (by norm_num)]
    norm_num [max_def]
  refine ⟨by norm_num, ?_, ?_⟩
  · rw [e0]; rw [e1]; rw [e2]
  · rw [e0]; rw [e1]

/-- C2 amended: if the FIRST call is itself outside the immunity window of
the last applied damage (so it applies), then a second `takeDamage(10)`
call less than 1000 ms later is blocked and leaves the whole state — in
particular the health — exactly as it was after the first call alone. -/
theorem C2_immunity_single_application (h : HealthSystem) (t1 t2 : ℤ)
    (hw : h.damageImmunityDuration = 1000)
    (hfirst : 1000 ≤ t1 - h.lastDamageTime)
    (hord : t1 ≤ t2) (hclose : t2 - t1 < 1000) :
    ((h.takeDamage t1 10).system.takeDamage t2 10).system =
        (h.takeDamage t1 10).system ∧
    (h.takeDamage t1 10).applied = true ∧
    ((h.takeDamage t1 10).system.takeDamage t2 10).applied = false := by
  have e1 := takeDamage_applied h t1 10 (by omega)
  have hsys : (h.takeDamage t1 10).system =
      ⟨h.maxHealth, max 0 (h.currentHealth - 10), t1,
        h.damageImmunityDuration⟩ := by rw [e1]
  have hblk : ((h.takeDamage t1 10).system).takeDamage t2 10 =
      ⟨(h.takeDamage t1 10).system, false, false⟩ := by
    apply takeDamage_blocked
    rw [hsys]
    simpa using by omega
  refine ⟨by rw [hblk], by rw [e1], by rw [hblk]⟩

/-- C2 witness. -/
theorem C2_immunity_single_application_witness :
    (((HealthSystem.init 100).takeDamage 2000 10).system.takeDamage 2500
        10).system = ((HealthSystem.init 100).takeDamage 2000 10).system ∧
    ((HealthSystem.init 100).takeDamage 2000 10).applied = true ∧
    (((HealthSystem.init 100).takeDamage 2000 10).system.takeDamage 2500
        10).applied = false :=
  C2_immunity_single_application (HealthSystem.init 100) 2000 2500
    (by decide) (by decide) (by decide) (by decide)

/-- C7: a `takeDamage` call inside the immunity window of the last applied
damage changes no state (`currentHealth` and `lastDamageTime` are those of
the original system), signals no death, and returns `false`; a call
outside the window returns `true` — the blocked result is distinct from
the applied result. -/
theorem C7_blocked_call_is_pure (h : HealthSystem) (now : ℤ) (amount : ℚ) :
    (now - h.lastDamageTime < h.damageImmunityDuration →
      h.takeDamage now amount = ⟨h, false, false⟩) ∧
    (h.damageImmunityDuration ≤ now - h.lastDamageTime →
      (h.takeDamage now amount).applied = true) := by
  constructor
  · intro hc
    exact takeDamage_blocked h now amount hc
  · intro hc
    rw [takeDamage_applied h now amount hc]

/-- C7 witness. -/
theorem C7_blocked_call_is_pure_witness :
    ((500 : ℤ) - (HealthSystem.init 100).lastDamageTime <
        (HealthSystem.init 100).damageImmunityDuration →
      (HealthSystem.init 100).takeDamage 500 10 =
        ⟨HealthSystem.init 100, false, false⟩) ∧
    ((HealthSystem.init 100).damageImmunityDuration ≤
        (1500 : ℤ) - (HealthSystem.init 100).lastDamageTime →
      ((HealthSystem.init 100).takeDamage 1500 10).applied = true) :=
  ⟨(C7_blocked_call_is_pure (HealthSystem.init 100) 500 10).1,
    (C7_blocked_call_is_pure (HealthSystem.init 100) 1500 10).2⟩

/-- Helper: `updateShooting` fires when the key is down, the fire-rate
interval has elapsed, and ammo is positive. -/
theorem updateShooting_fires (p : Player) (t : ℤ)
    (h1 : p.fireRate ≤ t - p.lastShotTime) (h2 : 0 < p.ammo) :
    p.updateShooting t true =
      { p with
        bullets := p.bullets + 1
        lastShotTime := t
        ammo := p.ammo - 1 } := by
  unfold Player.updateShooting
  rw [if_pos ⟨rfl, h1, h2⟩]

/-- Helper: `updateShooting` is the identity within the fire-rate window. -/
theorem updateShooting_skips_rate (p : Player) (t : ℤ) (k : Bool)
    (h : t - p.lastShotTime < p.fireRate) : p.updateShooting t k = p := by
  unfold Player.updateShooting
  rw [if_neg]
  rintro ⟨-, h1, -⟩
  omega

/-- Helper: `updateShooting` is the identity when ammo is exhausted. -/
theorem updateShooting_skips_ammo (p : Player) (t : ℤ) (k : Bool)
    (h : p.ammo ≤ 0) : p.updateShooting t k = p := by
  unfold Player.updateShooting
  rw [if_neg]
  rintro ⟨-, -, h2⟩
  omega

/-- C6: a player at full ammo (30) with a 200 ms fire rate who attempts to
fire every 50 ms for one second fires exactly 5 shots and ends with ammo
25; in general no shot fires at zero ammo or within `fireRate` of the last
shot, and every successful shot (one bullet pushed) decrements ammo by
exactly one. -/
theorem C6_rate_limited_firing (t0 : ℤ) (ht : 200 ≤ t0) :
    ((Player.init.runShootAttempts (Player.attemptTimes t0)).ammo = 25 ∧
      (Player.init.runShootAttempts (Player.attemptTimes t0)).bullets = 5) ∧
    (∀ p : Player, ∀ t : ℤ, ∀ k : Bool, p.ammo ≤ 0 →
      p.updateShooting t k = p) ∧
    (∀ p : Player, ∀ t : ℤ, ∀ k : Bool, t - p.lastShotTime < p.fireRate →
      p.updateShooting t k = p) ∧
    (∀ p : Player, ∀ t : ℤ, ∀ k : Bool,
      (p.updateShooting t k).bullets = p.bullets + 1 →
        (p.updateShooting t k).ammo = p.ammo - 1) := by
  refine ⟨?_, fun p t k h => updateShooting_skips_ammo p t k h,
    fun p t k h => updateShooting_skips_rate p t k h, ?_⟩
  · have e1 : Player.init.updateShooting t0 true =
        ⟨100, 100, 29, 30, t0, 200, 1⟩ := by
      rw [updateShooting_fires _ _ (by show (200 : ℤ) ≤ t0 - 0; omega)
        (by decide)]
      norm_num [Player.init]
    have e2 : (⟨100, 100, 29, 30, t0, 200, 1⟩ : Player).updateShooting
        (t0 + 50) true = ⟨100, 100, 29, 30, t0, 200, 1⟩ :=
      updateShooting_skips_rate _ _ _ (by show t0 + 50 - t0 < (200 : ℤ); omega)
    have e3 : (⟨100, 100, 29, 30, t0, 200, 1⟩ : Player).updateShooting
        (t0 + 100) true = ⟨100, 100, 29, 30, t0, 200, 1⟩ :=
      updateShooting_skips_rate _ _ _ (by show t0 + 100 - t0 < (200 : ℤ); omega)
    have e4 : (⟨100, 100, 29, 30, t0, 200, 1⟩ : Player).updateShooting
        (t0 + 150) true = ⟨100, 100, 29, 30, t0, 200, 1⟩ :=
      updateShooting_skips_rate _ _ _ (by show t0 + 150 - t0 < (200 : ℤ); omega)
    have e5 : (⟨100, 100, 29, 30, t0, 200, 1⟩ : Player).updateShooting
        (t0 + 200) true = ⟨100, 100, 28, 30, t0 + 200, 200, 2⟩ := by
      rw [updateShooting_fires _ _ (by show (200 : ℤ) ≤ t0 + 200 - t0; omega)
        (by show (0 : ℤ) < 29; decide)]
      norm_num
    have e6 : (⟨100, 100, 28, 30, t0 + 200, 200, 2⟩ : Player).updateShooting
        (t0 + 250) true = ⟨100, 100, 28, 30, t0 + 200, 200, 2⟩ :=
      updateShooting_skips_rate _ _ _
        (by show t0 + 250 - (t0 + 200) < (200 : ℤ); omega)
    have e7 : (⟨100, 100, 28, 30, t0 + 200, 200, 2⟩ : Player).updateShooting
        (t0 + 300) true = ⟨100, 100, 28, 30, t0 + 200, 200, 2⟩ :=
      updateShooting_skips_rate _ _ _
        (by show t0 + 300 - (t0 + 200) < (200 : ℤ); omega)
    have e8 : (⟨100, 100, 28, 30, t0 + 200, 200, 2⟩ : Player).updateShooting
        (t0 + 350) true = ⟨100, 100, 28, 30, t0 + 200, 200, 2⟩ :=
      updateShooting_skips_rate _ _ _
        (by show t0 + 350 - (t0 + 200) < (200 : ℤ); omega)
    have e9 : (⟨100, 100, 28, 30, t0 + 200, 200, 2⟩ : Player).updateShooting
        (t0 + 400) true = ⟨100, 100, 27, 30, t0 + 400, 200, 3⟩ := by
      rw [updateShooting_fires _ _
        (by show (200 : ℤ) ≤ t0 + 400 - (t0 + 200); omega)
        (by show (0 : ℤ) < 28; decide)]
      norm_num
    have e10 : (⟨100, 100, 27, 30, t0 + 400, 200, 3⟩ : Player).updateShooting
        (t0 + 450) true = ⟨100, 100, 27, 30, t0 + 400, 200, 3⟩ :=
      updateShooting_skips_rate _ _ _
        (by show t0 + 450 - (t0 + 400) < (200 : ℤ); omega)
    have e11 : (⟨100, 100, 27, 30, t0 + 400, 200, 3⟩ : Player).updateShooting
        (t0 + 500) true = ⟨100, 100, 27, 30, t0 + 400, 200, 3⟩ :=
      updateShooting_skips_rate _ _ _
        (by show t0 + 500 - (t0 + 400) < (200 : ℤ); omega)
    have e12 : (⟨100, 100, 27, 30, t0 + 400, 200, 3⟩ : Player).updateShooting
        (t0 + 550) true = ⟨100, 100, 27, 30, t0 + 400, 200, 3⟩ :=
      updateShooting_skips_rate _ _ _
        (by show t0 + 550 - (t0 + 400) < (200 : ℤ); omega)
    have e13 : (⟨100, 100, 27, 30, t0 + 400, 200, 3⟩ : Player).updateShooting
        (t0 + 600) true = ⟨100, 100, 26, 30, t0 + 600, 200, 4⟩ := by
      rw [updateShooting_fires _ _
        (by show (200 : ℤ) ≤ t0 + 600 - (t0 + 400); omega)
        (by show (0 : ℤ) < 27; decide)]
      norm_num
    have e14 : (⟨100, 100, 26, 30, t0 + 600, 200, 4⟩ : Player).updateShooting
        (t0 + 650) true = ⟨100, 100, 26, 30, t0 + 600, 200, 4⟩ :=
      updateShooting_skips_rate _ _ _
        (by show t0 + 650 - (t0 + 600) < (200 : ℤ); omega)
    have e15 : (⟨100, 100, 26, 30, t0 + 600, 200, 4⟩ : Player).updateShooting
        (t0 + 700) true = ⟨100, 100, 26, 30, t0 + 600, 200, 4⟩ :=
      updateShooting_skips_rate _ _ _
        (by show t0 + 700 - (t0 + 600) < (200 : ℤ); omega)
    have e16 : (⟨100, 100, 26, 30, t0 + 600, 200, 4⟩ : Player).updateShooting
        (t0 + 750) true = ⟨100, 100, 26, 30, t0 + 600, 200, 4⟩ :=
      updateShooting_skips_rate _ _ _
        (by show t0 + 750 - (t0 + 600) < (200 : ℤ); omega)
    have e17 : (⟨100, 100, 26, 30, t0 + 600, 200, 4⟩ : Player).updateShooting
        (t0 + 800) true = ⟨100, 100, 25, 30, t0 + 800, 200, 5⟩ := by
      rw [updateShooting_fires _ _
        (by show (200 : ℤ) ≤ t0 + 800 - (t0 + 600); omega)
        (by show (0 : ℤ) < 26; decide)]
      norm_num
    have e18 : (⟨100, 100, 25, 30, t0 + 800, 200, 5⟩ : Player).updateShooting
        (t0 + 850) true = ⟨100, 100, 25, 30, t0 + 800, 200, 5⟩ :=
      updateShooting_skips_rate _ _ _
        (by show t0 + 850 - (t0 + 800) < (200 : ℤ); omega)
    have e19 : (⟨100, 100, 25, 30, t0 + 800, 200, 5⟩ : Player).updateShooting
        (t0 + 900) true = ⟨100, 100, 25, 30, t0 + 800, 200, 5⟩ :=
      updateShooting_skips_rate _ _ _
        (by show t0 + 900 - (t0 + 800) < (200 : ℤ); omega)
    have e20 : (⟨100, 100, 25, 30, t0 + 800, 200, 5⟩ : Player).updateShooting
        (t0 + 950) true = ⟨100, 100, 25, 30, t0 + 800, 200, 5⟩ :=
      updateShooting_skips_rate _ _ _
        (by show t0 + 950 - (t0 + 800) < (200 : ℤ); omega)
    have key : Player.init.runShootAttempts (Player.attemptTimes t0) =
        ⟨100, 100, 25, 30, t0 + 800, 200, 5⟩ := by
      simp only [Player.runShootAttempts, Player.attemptTimes,
        List.foldl_cons, List.foldl_nil]
      rw [e1, e2, e3, e4, e5, e6, e7, e8, e9, e10, e11, e12, e13, e14, e15,
        e16, e17, e18, e19, e20]
    rw [key]
    exact ⟨rfl, rfl⟩
  · intro p t k hb
    by_cases hc : (k = true ∧ p.fireRate ≤ t - p.lastShotTime ∧ 0 < p.ammo)
    · unfold Player.updateShooting
      rw [if_pos hc]
    · unfold Player.updateShooting at hb ⊢
      rw [if_neg hc] at hb ⊢
      omega

/-- C6 witness. -/
theorem C6_rate_limited_firing_witness :
    ((Player.init.runShootAttempts (Player.attemptTimes 1000)).ammo = 25 ∧
      (Player.init.runShootAttempts (Player.attemptTimes 1000)).bullets = 5) ∧
    (Player.init.updateShooting 5000 true).ammo = Player.init.ammo - 1 :=
  ⟨(C6_rate_limited_firing 1000 (by decide)).1,
    (C6_rate_limited_firing 1000 (by decide)).2.2.2 Player.init 5000 true
      (by decide)⟩

/-- Helper: the spawn loop never pushes the population above the cap once
it is at or below the cap. -/
theorem spawnLoop_le (maxZ c n : ℕ) (h : n ≤ maxZ) :
    spawnLoop maxZ c n ≤ maxZ := by
  induction c generalizing n with
  | zero => exact h
  | succ c ih =>
    unfold spawnLoop
    split
    · exact ih (n + 1) (by omega)
    · exact h

/-- Helper: spawning one zombie below the cap increments the population. -/
theorem spawnLoop_one (maxZ n : ℕ) (h : n < maxZ) :
    spawnLoop maxZ 1 n = n + 1 := by
  simp [spawnLoop, h]

/-- Helper: explicit form of one update tick. -/
theorem update_cases (g : GameState) (dtMs : ℚ) (deaths : ℕ) :
    g.update dtMs deaths =
      if (g.zombieSpawnInterval : ℚ) ≤ g.zombieSpawnTimer + dtMs then
        ⟨spawnLoop g.maxZombies 1 (g.zombieCount - deaths), 0,
          if 1000 < g.zombieSpawnInterval then g.zombieSpawnInterval - 50
          else g.zombieSpawnInterval, g.maxZombies⟩
      else
        ⟨g.zombieCount - deaths, g.zombieSpawnTimer + dtMs,
          g.zombieSpawnInterval, g.maxZombies⟩ := by
  unfold GameState.update GameState.spawnZombies
  dsimp only

/-- Helper: session invariant of every reachable game state — the cap is
10, the population respects it, and the spawn interval is a multiple of
50 that never drops below 1000 ms. -/
theorem reachable_inv (g : GameState) (h : g.Reachable) :
    g.maxZombies = 10 ∧ g.zombieCount ≤ 10 ∧
      1000 ≤ g.zombieSpawnInterval ∧ (50 : ℤ) ∣ g.zombieSpawnInterval := by
  induction h with
  | setup => exact ⟨rfl, by decide, by decide, by decide⟩
  | update g dtMs deaths hr hdt ih =>
    obtain ⟨hmax, hcount, hint, hdvd⟩ := ih
    obtain ⟨k, hk⟩ := hdvd
    rw [update_cases]
    split
    · refine ⟨hmax, ?_, ?_, ?_⟩
      · show spawnLoop g.maxZombies 1 (g.zombieCount - deaths) ≤ 10
        rw [hmax]
        exact spawnLoop_le 10 1 _ (by omega)
      · dsimp only
        split <;> omega
      · dsimp only
        split
        · exact ⟨k - 1, by omega⟩
        · exact ⟨k, hk⟩
    · refine ⟨hmax, ?_, hint, ⟨k, hk⟩⟩
      dsimp only
      omega
  | restart g hr ih =>
    obtain ⟨hmax, -, -, -⟩ := ih
    refine ⟨hmax, ?_, by show (1000 : ℤ) ≤ 3000; decide,
      by show (50 : ℤ) ∣ 3000; decide⟩
    show spawnLoop g.maxZombies 3 0 ≤ 10
    rw [hmax]
    exact spawnLoop_le 10 3 0 (by omega)

/-- C4: in every reachable game state — after setup, any sequence of
update ticks, and any restarts — the zombie population is at most the cap
of 10. -/
theorem C4_population_cap (g : GameState) (h : g.Reachable) :
    g.zombieCount ≤ 10 :=
  (reachable_inv g h).2.1

/-- C4 witness. -/
theorem C4_population_cap_witness : GameState.setup.zombieCount ≤ 10 :=
  C4_population_cap GameState.setup GameState.Reachable.setup

/-- Helper: one update tick never raises the spawn interval, and keeps it
at or above 1000 ms and a multiple of 50. -/
theorem update_interval (g : GameState) (dtMs : ℚ) (deaths : ℕ)
    (hint : 1000 ≤ g.zombieSpawnInterval)
    (hdvd : (50 : ℤ) ∣ g.zombieSpawnInterval) :
    (g.update dtMs deaths).zombieSpawnInterval ≤ g.zombieSpawnInterval ∧
      1000 ≤ (g.update dtMs deaths).zombieSpawnInterval ∧
      (50 : ℤ) ∣ (g.update dtMs deaths).zombieSpawnInterval := by
  obtain ⟨k, hk⟩ := hdvd
  rw [update_cases]
  split
  · refine ⟨?_, ?_, ?_⟩
    · dsimp only
      split <;> omega
    · dsimp only
      split <;> omega
    · dsimp only
      split
      · exact ⟨k - 1, by omega⟩
      · exact ⟨k, hk⟩
  · exact ⟨le_refl _, hint, ⟨k, hk⟩⟩

/-- C5: over any sequence of update ticks within one session, the spawn
interval is monotonically non-increasing and never drops below the
1000 ms floor (the hypotheses — interval at least 1000 and a multiple of
50 — hold in every reachable state, in particular at the session start
value 3000). -/
theorem C5_spawn_interval_floor (g : GameState) (steps : List (ℚ × ℕ))
    (hint : 1000 ≤ g.zombieSpawnInterval)
    (hdvd : (50 : ℤ) ∣ g.zombieSpawnInterval) :
    (g.runUpdates steps).zombieSpawnInterval ≤ g.zombieSpawnInterval ∧
      1000 ≤ (g.runUpdates steps).zombieSpawnInterval := by
  induction steps generalizing g with
  | nil => exact ⟨le_refl _, hint⟩
  | cons s rest ih =>
    obtain ⟨h1, h2, h3⟩ := update_interval g s.1 s.2 hint hdvd
    obtain ⟨h4, h5⟩ := ih (g.update s.1 s.2) h2 h3
    exact ⟨le_trans h4 h1, h5⟩

/-- C5 witness. -/
theorem C5_spawn_interval_floor_witness :
    (GameState.setup.runUpdates [(3000, 0)]).zombieSpawnInterval ≤
        GameState.setup.zombieSpawnInterval ∧
      1000 ≤ (GameState.setup.runUpdates [(3000, 0)]).zombieSpawnInterval :=
  C5_spawn_interval_floor GameState.setup [(3000, 0)] (by decide) (by decide)

/-- C9: `getKillCount` is the remaining-population arithmetic
`max(0, 10 - zombies.length)`: it never exceeds 10, and it strictly
decreases whenever a new zombie spawns (population below the cap of 10). -/
theorem C9_kill_count_arithmetic (g : GameState) (hmax : g.maxZombies = 10)
    (hcount : g.zombieCount < 10) :
    (∀ g2 : GameState, g2.getKillCount ≤ 10) ∧
      (g.spawnZombies 1).getKillCount < g.getKillCount := by
  constructor
  · intro g2
    unfold GameState.getKillCount
    rcases max_choice (0 : ℤ) (10 - (g2.zombieCount : ℤ)) with h | h <;>
      rw [h] <;> omega
  · have hc : (g.spawnZombies 1).zombieCount = g.zombieCount + 1 := by
      show spawnLoop g.maxZombies 1 g.zombieCount = g.zombieCount + 1
      rw [hmax]
      exact spawnLoop_one 10 g.zombieCount hcount
    unfold GameState.getKillCount
    rw [hc]
    have hcz : (g.zombieCount : ℤ) < 10 := by exact_mod_cast hcount
    push_cast
    rw [max_eq_right (by omega), max_eq_right (by omega)]
    omega

/-- C9 witness. -/
theorem C9_kill_count_arithmetic_witness :
    (∀ g2 : GameState, g2.getKillCount ≤ 10) ∧
      (GameState.setup.spawnZombies 1).getKillCount <
        GameState.setup.getKillCount :=
  C9_kill_count_arithmetic GameState.setup (by decide) (by decide)

/-- Helper: a `takeDamage` call whose amount reaches the current health
clamps health to 0 and triggers `die()`. -/
theorem takeDamage_kills (z : Zombie) (amount : ℚ)
    (hkill : z.health ≤ amount) :
    z.takeDamage amount =
      { z with
        health := 0
        state := .dead
        velocityX := 0
        velocityY := 0
        velocityZ := 0
        mass := 0 } := by
  have hmax : max (0 : ℚ) (z.health - amount) = 0 := max_eq_left (by linarith)
  unfold Zombie.takeDamage
  dsimp only
  rw [hmax, if_pos (le_refl (0 : ℚ))]
  rfl

/-- Helper: once a zombie has health at most 0 and state dead, any
sequence of `update` and nonnegative `takeDamage` calls keeps it there. -/
theorem zombie_dead_stable (z : Zombie) (hz : z.health ≤ 0)
    (hs : z.state = .dead) (cs : List ZombieCall)
    (hcs : ∀ c ∈ cs, c.nonNegDamage) :
    (z.applyCalls cs).state = .dead ∧ (z.applyCalls cs).health ≤ 0 := by
  induction cs generalizing z with
  | nil => exact ⟨hs, hz⟩
  | cons c rest ih =>
    have hstep : (z.applyCall c).state = .dead ∧ (z.applyCall c).health ≤ 0 := by
      cases c with
      | update dtMs ht dist md dx dz rx rz =>
        simp only [Zombie.applyCall]
        unfold Zombie.update
        rw [if_pos hz]
        exact ⟨rfl, hz⟩
      | damage a =>
        have ha : 0 ≤ a := hcs _ (List.mem_cons_self _ _)
        have hza : z.health ≤ a := le_trans hz ha
        simp only [Zombie.applyCall]
        rw [takeDamage_kills z a hza]
        exact ⟨rfl, le_refl 0⟩
    have hrest : ∀ d ∈ rest, d.nonNegDamage := fun d hd =>
      hcs d (List.mem_cons_of_mem _ hd)
    show ((z.applyCall c).applyCalls rest).state = .dead ∧
      ((z.applyCall c).applyCalls rest).health ≤ 0
    exact ih (z.applyCall c) hstep.2 hstep.1 hrest

/-- C8: when a `takeDamage` call brings a live zombie's health to 0, the
zombie transitions to the dead state with its velocity zeroed and its
body mass set to 0, and no subsequent sequence of `update` or
(nonnegative, as at every call site) `takeDamage` calls ever moves it to
any other state. -/
theorem C8_dead_state_terminal (z : Zombie) (amount : ℚ)
    (hpos : 0 < z.health) (hkill : z.health ≤ amount) :
    ((z.takeDamage amount).state = .dead ∧
      (z.takeDamage amount).velocityX = 0 ∧
      (z.takeDamage amount).velocityY = 0 ∧
      (z.takeDamage amount).velocityZ = 0 ∧
      (z.takeDamage amount).mass = 0) ∧
    (∀ cs : List ZombieCall, (∀ c ∈ cs, c.nonNegDamage) →
      ((z.takeDamage amount).applyCalls cs).state = .dead) := by
  rw [takeDamage_kills z amount hkill]
  refine ⟨⟨rfl, rfl, rfl, rfl, rfl⟩, fun cs hcs => ?_⟩
  exact (zombie_dead_stable _ (le_refl 0) rfl cs hcs).1

/-- C8 witness. -/
theorem C8_dead_state_terminal_witness :
    ((Zombie.spawn.takeDamage 100).state = .dead ∧
      (Zombie.spawn.takeDamage 100).velocityX = 0 ∧
      (Zombie.spawn.takeDamage 100).velocityY = 0 ∧
      (Zombie.spawn.takeDamage 100).velocityZ = 0 ∧
      (Zombie.spawn.takeDamage 100).mass = 0) ∧
    ((Zombie.spawn.takeDamage 100).applyCalls
      [ZombieCall.damage 25,
        ZombieCall.update 16 true 1 0 0 0 0 0]).state = .dead :=
  ⟨(C8_dead_state_terminal Zombie.spawn 100 (by norm_num [Zombie.spawn])
      (by norm_num [Zombie.spawn])).1,
    (C8_dead_state_terminal Zombie.spawn 100 (by norm_num [Zombie.spawn])
      (by norm_num [Zombie.spawn])).2
      [ZombieCall.damage 25, ZombieCall.update 16 true 1 0 0 0 0 0]
      (by
        intro c hc
        simp only [List.mem_cons, List.not_mem_nil, or_false] at hc
        rcases hc with rfl | rfl
        · norm_num [ZombieCall.nonNegDamage]
        · exact trivial)⟩

/-- Helper: erasing an element never increases the flagged count. -/
theorem countFlagged_eraseIdx_le (now : ℤ) (bs : List Bullet) (k : ℕ) :
    countFlagged now (bs.eraseIdx k) ≤ countFlagged now bs := by
  induction bs generalizing k with
  | nil => exact le_refl _
  | cons x xs ih =>
    cases k with
    | zero =>
      show countFlagged now xs ≤ countFlagged now (x :: xs)
      unfold countFlagged
      rw [List.countP_cons]
      omega
    | succ k =>
      show countFlagged now (x :: xs.eraseIdx k) ≤ countFlagged now (x :: xs)
      unfold countFlagged
      rw [List.countP_cons, List.countP_cons]
      have := ih k
      unfold countFlagged at this
      omega

/-- Helper: erasing a flagged element strictly decreases the flagged
count. -/
theorem countFlagged_eraseIdx_lt (now : ℤ) (bs : List Bullet) (k : ℕ)
    (b : Bullet) (hget : bs.get? k = some b)
    (hflag : b.shouldRemove now = true) :
    countFlagged now (bs.eraseIdx k) < countFlagged now bs := by
  induction bs generalizing k with
  | nil => simp at hget
  | cons x xs ih =>
    cases k with
    | zero =>
      obtain rfl : x = b := by simpa using hget
      show countFlagged now xs < countFlagged now (x :: xs)
      unfold countFlagged
      simp only [List.countP_cons, hflag, if_true]
      omega
    | succ k =>
      have hx := ih k (by simpa using hget)
      show countFlagged now (x :: xs.eraseIdx k) < countFlagged now (x :: xs)
      unfold countFlagged at *
      rw [List.countP_cons, List.countP_cons]
      omega

/-- Helper: the removal sweep never increases the flagged count. -/
theorem updateBulletsGo_le (now : ℤ) (fuel : ℕ) :
    ∀ (k : ℕ) (bs : List Bullet),
      countFlagged now (updateBulletsGo now fuel k bs) ≤ countFlagged now bs := by
  induction fuel with
  | zero => exact fun k bs => le_refl _
  | succ fuel ih =>
    intro k bs
    unfold updateBulletsGo
    cases hg : bs.get? k with
    | none => exact ih (k + 1) bs
    | some b =>
      dsimp only
      split
      · exact le_trans (ih (k + 1) _) (countFlagged_eraseIdx_le now bs k)
      · exact ih (k + 1) bs

/-- Helper: the removal sweep strictly decreases the flagged count when a
flagged bullet sits at an index the loop still has to visit. -/
theorem updateBulletsGo_lt (now : ℤ) (fuel : ℕ) :
    ∀ (k : ℕ) (bs : List Bullet) (i : ℕ) (b : Bullet), k ≤ i → i < k + fuel →
      bs.get? i = some b → b.shouldRemove now = true →
      countFlagged now (updateBulletsGo now fuel k bs) < countFlagged now bs := by
  induction fuel with
  | zero => omega
  | succ fuel ih =>
    intro k bs i b hki hif hget hflag
    unfold updateBulletsGo
    cases hg : bs.get? k with
    | none =>
      exfalso
      have hlen : bs.length ≤ k := List.get?_eq_none.mp hg
      have hnone : bs.get? i = none := List.get?_eq_none.mpr (by omega)
      rw [hget] at hnone
      cases hnone
    | some c =>
      dsimp only
      split
      · exact lt_of_le_of_lt (updateBulletsGo_le now fuel (k + 1) _)
          (countFlagged_eraseIdx_lt now bs k c hg (by assumption))
      · have hne : i ≠ k := by
          rintro rfl
          rw [hget] at hg
          injection hg with e
          subst e
          simp_all
        exact ih (k + 1) bs i b (by omega) (by omega) hget hflag

/-- Helper: a sweep over a list that still contains a flagged bullet
removes at least one flagged bullet. -/
theorem updateBullets_decreases (now : ℤ) (bs : List Bullet)
    (h : 0 < countFlagged now bs) :
    countFlagged now (updateBullets now bs) < countFlagged now bs := by
  obtain ⟨b, hmem, hflag⟩ := List.countP_pos_iff.mp h
  obtain ⟨i, hget⟩ := List.mem_iff_get?.mp hmem
  have hi : i < bs.length := (List.get?_eq_some.mp hget).1
  exact updateBulletsGo_lt now bs.length 0 bs i b (Nat.zero_le i)
    (by omega) hget hflag

/-- Helper: after as many sweeps as there are flagged bullets, none
remain. -/
theorem iterateSweep_le_clears (now : ℤ) (n : ℕ) :
    ∀ bs : List Bullet, countFlagged now bs ≤ n →
      countFlagged now (iterateSweep now n bs) = 0 := by
  induction n with
  | zero => intro bs h; simpa [iterateSweep] using h
  | succ n ih =>
    intro bs h
    show countFlagged now (iterateSweep now n (updateBullets now bs)) = 0
    rcases Nat.eq_zero_or_pos (countFlagged now bs) with h0 | h0
    · exact ih _ (le_trans (updateBulletsGo_le now bs.length 0 bs) (by omega))
    · exact ih _ (by have := updateBullets_decreases now bs h0; omega)

/-- C10 counterexample: two bullets both flagged by a collision; the
removal sweep splices the first out, the `forEach` index skips over the
second (it shifted into the just-visited slot), and the second flagged
bullet survives the sweep — it is NOT removed by the next per-tick sweep. -/
theorem C10_counterexample :
    ((Bullet.fresh 0 1).onCollision .ground).shouldRemove 10 = true ∧
    ((Bullet.fresh 5 1).onCollision .zombieBody).shouldRemove 10 = true ∧
    updateBullets 10
        [(Bullet.fresh 0 1).onCollision .ground,
          (Bullet.fresh 5 1).onCollision .zombieBody] =
      [(Bullet.fresh 5 1).onCollision .zombieBody] := by
  refine ⟨rfl, rfl, ?_⟩
  show updateBulletsGo 10 2 0 _ = _
  rw [updateBulletsGo]
  rfl

/-- C10 amended: the collision handler sets `shouldBeRemoved` without
inspecting the other body's kind and without touching anything else (in
particular it deals no damage), so `shouldRemove()` returns `true` from
then on; every sweep removes at least one flagged bullet — in particular
a flagged bullet at the head of the list is removed by the next sweep —
but a flagged bullet whose predecessor is spliced out in the same sweep
can be skipped for that tick, so a flagged bullet is only guaranteed to
be gone after at most as many sweeps as there are flagged bullets. -/
theorem C10_collision_flags_bullet :
    (∀ (b : Bullet) (other : BodyKind) (t : ℤ),
      b.onCollision other = ⟨true, b.createTime, b.posY⟩ ∧
        (b.onCollision other).shouldRemove t = true) ∧
    (∀ (t : ℤ) (bs : List Bullet), 0 < countFlagged t bs →
      countFlagged t (updateBullets t bs) < countFlagged t bs) ∧
    (∀ (t : ℤ) (bs : List Bullet),
      countFlagged t (iterateSweep t (countFlagged t bs) bs) = 0) := by
  refine ⟨fun b other t => ⟨rfl, rfl⟩,
    fun t bs h => updateBullets_decreases t bs h,
    fun t bs => iterateSweep_le_clears t (countFlagged t bs) bs (le_refl _)⟩

/-- C10 witness. -/
theorem C10_collision_flags_bullet_witness :
    ((Bullet.fresh 0 1).onCollision .ground =
        ⟨true, (Bullet.fresh 0 1).createTime, (Bullet.fresh 0 1).posY⟩ ∧
      ((Bullet.fresh 0 1).onCollision .ground).shouldRemove 10 = true) ∧
    countFlagged 10 (updateBullets 10 [(Bullet.fresh 0 1).onCollision .ground]) <
      countFlagged 10 [(Bullet.fresh 0 1).onCollision .ground] ∧
    countFlagged 10
        (iterateSweep 10
          (countFlagged 10 [(Bullet.fresh 0 1).onCollision .ground])
          [(Bullet.fresh 0 1).onCollision .ground]) = 0 :=
  ⟨C10_collision_flags_bullet.1 (Bullet.fresh 0 1) .ground 10,
    C10_collision_flags_bullet.2.1 10 [(Bullet.fresh 0 1).onCollision .ground]
      (by decide),
    C10_collision_flags_bullet.2.2 10
      [(Bullet.fresh 0 1).onCollision .ground]⟩

/-- Helper: a `Zombie.takeDamage` call that leaves positive health only
lowers the health field. -/
theorem takeDamage_survives (z : Zombie) (amount : ℚ)
    (hlt : amount < z.health) :
    z.takeDamage amount = { z with health := z.health - amount } := by
  have hmax : max (0 : ℚ) (z.health - amount) = z.health - amount :=
    max_eq_right (by linarith)
  unfold Zombie.takeDamage
  dsimp only
  rw [hmax, if_neg (by linarith)]

/-- C3 counterexample: one bullet spatially overlapping two zombies in the
same sweep damages BOTH — the inner zombie loop does not stop after the
first hit, so the bullet pierces: both zombies drop from 100 to 75
health. -/
theorem C3_counterexample :
    Zombie.spawn.health = 100 ∧
    (handleBulletCollisions (fun _ _ => true) [Zombie.spawn, Zombie.spawn]
        [0]).1.map Zombie.health = [75, 75] := by
  have hdmg : Zombie.spawn.takeDamage 25 = { Zombie.spawn with health := 75 } := by
    rw [takeDamage_survives Zombie.spawn 25 (by norm_num [Zombie.spawn])]
    norm_num [Zombie.spawn]
  have hrun : handleBulletCollisions (fun _ _ => true)
      [Zombie.spawn, Zombie.spawn] [0] =
      ([Zombie.spawn.takeDamage 25, Zombie.spawn.takeDamage 25], []) := rfl
  refine ⟨rfl, ?_⟩
  rw [hrun, hdmg]
  simp

/-- Helper: reading the modified index. -/
theorem modifyAt_get_eq {α : Type} (f : α → α) (j : ℕ) (xs : List α) :
    (modifyAt f j xs).get? j = (xs.get? j).map f := by
  induction xs generalizing j with
  | nil => simp [modifyAt]
  | cons x xs ih =>
    cases j with
    | zero => rfl
    | succ j =>
      show (x :: modifyAt f j xs).get? (j + 1) = ((x :: xs).get? (j + 1)).map f
      simpa using ih j

/-- Helper: reading any other index is unchanged. -/
theorem modifyAt_get_ne {α : Type} (f : α → α) (j i : ℕ) (xs : List α)
    (h : i ≠ j) : (modifyAt f j xs).get? i = xs.get? i := by
  induction xs generalizing i j with
  | nil => simp [modifyAt]
  | cons x xs ih =>
    cases j with
    | zero =>
      cases i with
      | zero => exact absurd rfl h
      | succ i => rfl
    | succ j =>
      cases i with
      | zero => rfl
      | succ i =>
        show (x :: modifyAt f j xs).get? (i + 1) = (x :: xs).get? (i + 1)
        simpa using ih j i (by omega)

/-- Helper: the inner zombie loop is the identity over a run of indices
the bullet does not overlap. -/
theorem zombieSweep_nohit (collide : ℕ → ℕ → Bool) (b k : ℕ) (n : ℕ) :
    ∀ (j : ℕ) (zs : List Zombie) (bs : List ℕ),
      (∀ i, j ≤ i → i < j + n → collide b i = false) →
      zombieSweep collide b k j n zs bs = (zs, bs) := by
  induction n with
  | zero => intro j zs bs _; rfl
  | succ n ih =>
    intro j zs bs h
    have hj : collide b j = false := h j (le_refl j) (by omega)
    unfold zombieSweep
    rw [hj]
    exact ih (j + 1) zs bs (fun i h1 h2 => h i (by omega) (by omega))

/-- Helper: the inner zombie loop for a bullet overlapping exactly the
zombie at index `j0` damages that zombie once and splices index `k` out
of the bullet list once. -/
theorem zombieSweep_single (collide : ℕ → ℕ → Bool) (b k j0 : ℕ)
    (hhit : collide b j0 = true)
    (huniq : ∀ i, i ≠ j0 → collide b i = false) (n : ℕ) :
    ∀ (j : ℕ) (zs : List Zombie) (bs : List ℕ), j ≤ j0 → j0 < j + n →
      zombieSweep collide b k j n zs bs =
        (damageZombieAt j0 zs, bs.eraseIdx k) := by
  induction n with
  | zero => intro j zs bs h1 h2; omega
  | succ n ih =>
    intro j zs bs h1 h2
    by_cases hj : j = j0
    · subst hj
      unfold zombieSweep
      rw [hhit]
      exact zombieSweep_nohit collide b k n (j + 1) _ _
        (fun i hi1 hi2 => huniq i (by omega))
    · have hj2 : collide b j = false := huniq j hj
      unfold zombieSweep
      rw [hj2]
      exact ih (j + 1) zs bs (by omega) (by omega)

/-- C3 amended: a bullet that overlaps exactly one zombie during the
sweep deals its fixed 25 damage to that zombie exactly once (all other
zombies are untouched) and is spliced out of the bullet list; but — as
the counterexample shows — a bullet still overlapping a SECOND zombie
when the sweep runs damages that one too, because the inner loop does not
stop after the first hit. -/
theorem C3_single_overlap_bullet (collide : ℕ → ℕ → Bool) (zs : List Zombie)
    (b j0 : ℕ) (hhit : collide b j0 = true)
    (huniq : ∀ i, i ≠ j0 → collide b i = false) (hj : j0 < zs.length) :
    handleBulletCollisions collide zs [b] = (damageZombieAt j0 zs, []) ∧
    (damageZombieAt j0 zs).get? j0 =
      (zs.get? j0).map (fun z => z.takeDamage 25) ∧
    (∀ i, i ≠ j0 → (damageZombieAt j0 zs).get? i = zs.get? i) := by
  refine ⟨?_, modifyAt_get_eq _ j0 zs, fun i hi => modifyAt_get_ne _ j0 i zs hi⟩
  have key : handleBulletCollisions collide zs [b] =
      ((zombieSweep collide b 0 0 zs.length zs [b]).1,
        (zombieSweep collide b 0 0 zs.length zs [b]).2) := rfl
  rw [key, zombieSweep_single collide b 0 j0 hhit huniq zs.length 0 zs [b]
    (Nat.zero_le _) (by omega)]
  rfl

/-- C3 witness. -/
theorem C3_single_overlap_bullet_witness :
    handleBulletCollisions (fun _ j => decide (j = 1))
        [Zombie.spawn, Zombie.spawn, Zombie.spawn] [7] =
      (damageZombieAt 1 [Zombie.spawn, Zombie.spawn, Zombie.spawn], []) :=
  (C3_single_overlap_bullet (fun _ j => decide (j = 1))
    [Zombie.spawn, Zombie.spawn, Zombie.spawn] 7 1 (by decide)
    (fun i hi => decide_eq_false hi) (by decide)).1
